import Mathlib

/-!
Verification of the real-time chat server's presence and message-delivery
subsystem (`server/src/socket/handlers.js`, `server/src/routes/messages.js`,
`server/src/models/Message.js`), as a shallow embedding in Lean 4.

User ids, socket ids and timestamps are modelled as `Nat`; each JavaScript
`Map` becomes a function `Nat → Option Nat`; the mongoose message collection
becomes a `List Msg` indexed by position (the persisted id of a message is its
index at creation time, and new messages are appended).  Each socket handler
is embedded as a function producing the list of actions it performs in program
order (database writes and socket emissions), so that ordering properties can
be stated; each REST route is embedded as a function from the store to the
updated store paired with its HTTP response.
-/

namespace Chat

/-- A persisted message document, following the mongoose schema in
`Message.js`: sender, receiver, trimmed text, the two delivery-state flags and
their optional timestamps. -/
structure Msg where
  sender : Nat
  receiver : Nat
  text : String
  delivered : Bool
  read : Bool
  deliveredAt : Option Nat
  readAt : Option Nat
deriving Repr, DecidableEq

/-- The message collection: a list of documents, a message's id being its
index. -/
abbrev MsgStore := List Msg

/-- Whitespace as recognised by JavaScript `String.prototype.trim` (restricted
to the common ASCII whitespace characters, which is all the handlers can
receive in the fields concerned). -/
def isWsChar (c : Char) : Bool :=
  c = ' ' || c = '\t' || c = '\n' || c = '\r'

/-- Model of JavaScript `String.prototype.trim`: drop whitespace from both
ends. -/
def jsTrim (s : String) : String :=
  String.mk (((s.data.dropWhile isWsChar).reverse.dropWhile isWsChar).reverse)

/-- The message payload shape built by the handlers (`messageData` in
`handlers.js`, `formattedMessage` in `messages.js`). -/
structure MsgView where
  msgId : Nat
  text : String
  senderId : Nat
  receiverId : Nat
  delivered : Bool
  read : Bool
  isFromMe : Bool
deriving Repr, DecidableEq

/-- Outbound socket events emitted by the handlers. -/
inductive OutEvent where
  | errorEv (msg : String)
  | messageNew (v : MsgView)
  | messageSent (v : MsgView)
  | messageRead (msgId : Nat) (readBy : Nat) (readAt : Nat)
  | conversationRead (readBy : Nat) (readAt : Nat)
deriving Repr, DecidableEq

/-- Database writes against the message collection, mirroring the mongoose
calls the handlers make. -/
inductive DbWrite where
  | create (m : Msg)
  | setDelivered (msgId : Nat) (now : Nat)
  | setRead (msgId : Nat) (now : Nat)
  | bulkMarkRead (senderId receiverId : Nat) (now : Nat)
  | bulkMarkDelivered (senderId receiverId : Nat) (now : Nat)
deriving Repr, DecidableEq

/-- One step a handler performs, in program order: a database write or a
socket emission to a given socket id. -/
inductive Action where
  | db (w : DbWrite)
  | emit (toSocket : Nat) (ev : OutEvent)
deriving Repr, DecidableEq

/-- Filter of `Message.markAsRead`: sender, receiver and `read: false`. -/
def unreadMatch (senderId receiverId : Nat) (m : Msg) : Bool :=
  m.sender == senderId && m.receiver == receiverId && m.read == false

/-- Filter of `Message.markAsDelivered`: sender, receiver and
`delivered: false`. -/
def undeliveredMatch (senderId receiverId : Nat) (m : Msg) : Bool :=
  m.sender == senderId && m.receiver == receiverId && m.delivered == false

/-- Model of `Message.markAsRead(senderId, receiverId)`: `updateMany` setting
`read: true, readAt: now` on every matching document; returns the updated
store together with `modifiedCount`. -/
def markAsRead (store : MsgStore) (senderId receiverId now : Nat) :
    MsgStore × Nat :=
  (store.map fun m =>
      if unreadMatch senderId receiverId m then
        { m with read := true, readAt := some now }
      else m,
   store.countP (fun m => unreadMatch senderId receiverId m))

/-- Model of `Message.markAsDelivered(senderId, receiverId)`: `updateMany`
setting
`delivered: true, deliveredAt: now` on every matching document. -/
def markAsDelivered (store : MsgStore) (senderId receiverId now : Nat) :
    MsgStore × Nat :=
  (store.map fun m =>
      if undeliveredMatch senderId receiverId m then
        { m with delivered := true, deliveredAt := some now }
      else m,
   store.countP (fun m => undeliveredMatch senderId receiverId m))

/-- Update the document at index `msgId` (a no-op when the id does not
exist, as `findByIdAndUpdate` / fetch-then-save are on a missing id). -/
def updateAt : MsgStore → Nat → (Msg → Msg) → MsgStore
  | [], _, _ => []
  | m :: rest, 0, f => f m :: rest
  | m :: rest, n + 1, f => m :: updateAt rest n f

/-- Apply one database write to the store. -/
def applyWrite (store : MsgStore) : DbWrite → MsgStore
  | .create m => store ++ [m]
  | .setDelivered msgId now =>
      updateAt store msgId fun m => { m with delivered := true, deliveredAt := some now }
  | .setRead msgId now =>
      updateAt store msgId fun m => { m with read := true, readAt := some now }
  | .bulkMarkRead senderId receiverId now => (markAsRead store senderId receiverId now).1
  | .bulkMarkDelivered senderId receiverId now => (markAsDelivered store senderId receiverId now).1

/-- Apply one action to the store (emissions do not change it). -/
def applyAction (store : MsgStore) : Action → MsgStore
  | .db w => applyWrite store w
  | .emit _ _ => store

/-- Apply a handler's action list to the store, in program order. -/
def applyActions (store : MsgStore) (acts : List Action) : MsgStore :=
  acts.foldl applyAction store

/-- Point update of a finite map, as JavaScript `Map.prototype.set`. -/
def mapSet (m : Nat → Option Nat) (k v : Nat) : Nat → Option Nat :=
  fun x => if x = k then some v else m x

/-- Point removal from a finite map, as JavaScript `Map.prototype.delete`. -/
def mapDelete (m : Nat → Option Nat) (k : Nat) : Nat → Option Nat :=
  fun x => if x = k then none else m x

/-- The connection registry: the two module-level maps of `handlers.js`,
`activeUsers : userId → socketId` and `userSockets : socketId → userId`. -/
structure Registry where
  activeUsers : Nat → Option Nat
  userSockets : Nat → Option Nat

/-- The registry at process start: both maps empty. -/
def emptyRegistry : Registry :=
  { activeUsers := fun _ => none, userSockets := fun _ => none }

/-- Connection handler registration step (`handlers.js` lines 19-20):
`activeUsers.set(userId, socket.id); userSockets.set(socket.id, userId)` —
an unconditional overwrite. -/
def register (reg : Registry) (userId socketId : Nat) : Registry :=
  { activeUsers := mapSet reg.activeUsers userId socketId
    userSockets := mapSet reg.userSockets socketId userId }

/-- Disconnect handler cleanup step (`handlers.js` lines 223-224):
`activeUsers.delete(userId); userSockets.delete(socket.id)` — unconditional
deletes keyed by the disconnecting connection's owner and socket id. -/
def unregister (reg : Registry) (userId socketId : Nat) : Registry :=
  { activeUsers := mapDelete reg.activeUsers userId
    userSockets := mapDelete reg.userSockets socketId }

/-- The maximum message length configured in the mongoose schema
(`maxlength: [1000, ...]` in `Message.js`), validated at save time. -/
def maxMessageLength : Nat := 1000

/-- The `message:send` socket handler (`handlers.js` lines 35-106).
`userDir u = true` models `User.findById(u)` resolving; `receiverId` and
`text` are `Option`s because the fields may be absent from the payload (a
missing or falsy field fails the `!receiverId || !text` validation).  Produces
the handler's actions in program order.  A text longer than the schema
maximum fails mongoose validation at `message.save()`, which the handler's
`catch` reports as the generic send failure. -/
def handleMessageSend (userDir : Nat → Bool) (reg : Registry) (store : MsgStore)
    (senderId senderSock : Nat) (receiverId : Option Nat) (text : Option String)
    (now : Nat) : List Action :=
  match receiverId, text with
  | some rid, some t =>
    if (jsTrim t).length = 0 then
      [.emit senderSock (.errorEv "Invalid message data")]
    else if !(userDir rid) then
      [.emit senderSock (.errorEv "Receiver not found")]
    else if maxMessageLength < (jsTrim t).length then
      [.emit senderSock (.errorEv "Failed to send message")]
    else
      let m : Msg := { sender := senderId, receiver := rid, text := jsTrim t,
                       delivered := false, read := false,
                       deliveredAt := none, readAt := none }
      let msgId := store.length
      let snapshot : MsgView := { msgId := msgId, text := m.text,
                                  senderId := senderId, receiverId := rid,
                                  delivered := m.delivered, read := m.read,
                                  isFromMe := false }
      match reg.activeUsers rid with
      | some recvSock =>
          [.db (.create m),
           .emit recvSock (.messageNew snapshot),
           .db (.setDelivered msgId now),
           .emit senderSock (.messageSent { snapshot with delivered := true, isFromMe := true })]
      | none =>
          [.db (.create m),
           .emit senderSock (.messageSent { snapshot with delivered := false, isFromMe := true })]
  | _, _ => [.emit senderSock (.errorEv "Invalid message data")]

/-- The `message:read` socket handler (`handlers.js` lines 142-171):
`findByIdAndUpdate(messageId, {read: true, readAt: now})` with no
authorization check; when the document exists and the claimed sender is
online, notify them with `message:read`. -/
def handleMessageRead (reg : Registry) (store : MsgStore)
    (callerId messageId senderId now : Nat) : List Action :=
  match store[messageId]? with
  | none => []
  | some _ =>
    match reg.activeUsers senderId with
    | some senderSock =>
        [.db (.setRead messageId now),
         .emit senderSock (.messageRead messageId callerId now)]
    | none => [.db (.setRead messageId now)]

/-- The `conversation:read` socket handler (`handlers.js` lines 174-193):
`Message.markAsRead(senderId, userId)` then notify the sender if online. -/
def handleConversationRead (reg : Registry) (_store : MsgStore)
    (callerId senderId now : Nat) : List Action :=
  match reg.activeUsers senderId with
  | some senderSock =>
      [.db (.bulkMarkRead senderId callerId now),
       .emit senderSock (.conversationRead callerId now)]
  | none => [.db (.bulkMarkRead senderId callerId now)]

/-- HTTP outcome of `POST /messages`. -/
inductive RestSendResult where
  | created (v : MsgView)
  | err (status : Nat) (msg : String)
deriving Repr, DecidableEq

/-- The `POST /messages` route (`messages.js` lines 87-185), with the code's
check order: required fields, empty-after-trim text, receiver existence,
self-send, then `save()` (whose schema maxlength validation error the route
returns as a 400).  An empty string is falsy in JavaScript, so `text = ""`
fails the required-fields check. -/
def restSendMessage (userDir : Nat → Bool) (store : MsgStore) (senderId : Nat)
    (receiverId : Option Nat) (text : Option String) (_now : Nat) :
    MsgStore × RestSendResult :=
  match receiverId, text with
  | some rid, some t =>
    if t = "" then
      (store, .err 400 "Receiver ID and message text are required")
    else if (jsTrim t).length = 0 then
      (store, .err 400 "Message text cannot be empty")
    else if !(userDir rid) then
      (store, .err 404 "Receiver not found")
    else if rid = senderId then
      (store, .err 400 "Cannot send message to yourself")
    else if maxMessageLength < (jsTrim t).length then
      (store, .err 400 "Message cannot exceed 1000 characters")
    else
      let m : Msg := { sender := senderId, receiver := rid, text := jsTrim t,
                       delivered := false, read := false,
                       deliveredAt := none, readAt := none }
      (store ++ [m],
       .created { msgId := store.length, text := m.text, senderId := senderId,
                  receiverId := rid, delivered := false, read := false,
                  isFromMe := true })
  | _, _ => (store, .err 400 "Receiver ID and message text are required")

/-- HTTP outcome of `PUT /messages/:id/read`. -/
inductive RestReadResult where
  | ok (messageId : Nat) (readAt : Nat)
  | notFound
  | unauthorized
deriving Repr, DecidableEq

/-- The `PUT /messages/:id/read` route (`messages.js` lines 190-239): 404
when the message does not exist, 403 when the caller is not its receiver,
otherwise set `read = true, readAt = now` and save. -/
def restMarkMessageRead (store : MsgStore) (callerId messageId now : Nat) :
    MsgStore × RestReadResult :=
  match store[messageId]? with
  | none => (store, .notFound)
  | some m =>
    if m.receiver ≠ callerId then (store, .unauthorized)
    else
      (updateAt store messageId fun x => { x with read := true, readAt := some now },
       .ok messageId now)

/-- HTTP outcome of `PUT /messages/conversations/:id/read`. -/
inductive ConvReadResult where
  | ok (modifiedCount : Nat)
  | userNotFound
deriving Repr, DecidableEq

/-- The `PUT /messages/conversations/:id/read` route (`messages.js` lines
244-283): validate the sender exists, then `Message.markAsRead(senderId,
req.user._id)` and report its `modifiedCount`. -/
def restMarkConversationRead (userDir : Nat → Bool) (store : MsgStore)
    (callerId senderId now : Nat) : MsgStore × ConvReadResult :=
  if !(userDir senderId) then (store, .userNotFound)
  else
    let r := markAsRead store senderId callerId now
    (r.1, .ok r.2)

/-- The message-state effect of `GET /messages/conversations/:id/messages`
(`messages.js` lines 11-82): after validating the other user, the route runs
the fetch-triggered `Message.markAsDelivered(otherUserId, req.user._id)`. -/
def restGetConversation (userDir : Nat → Bool) (store : MsgStore)
    (callerId otherUserId now : Nat) : MsgStore :=
  if !(userDir otherUserId) then store
  else (markAsDelivered store otherUserId callerId now).1

/-- One message-state-mutating operation of the system, for stating
whole-system invariants over arbitrary interleavings. -/
inductive Op where
  | socketSend (senderId senderSock : Nat) (receiverId : Option Nat)
      (text : Option String) (now : Nat)
  | socketRead (callerId messageId senderId now : Nat)
  | socketConvRead (callerId senderId now : Nat)
  | restSend (senderId : Nat) (receiverId : Option Nat) (text : Option String) (now : Nat)
  | restRead (callerId messageId now : Nat)
  | restConvRead (callerId senderId now : Nat)
  | fetchConversation (callerId otherUserId now : Nat)

/-- Run one operation against the store, under the user directory and
registry state current at that moment. -/
def stepOp (userDir : Nat → Bool) (reg : Registry) (store : MsgStore) : Op → MsgStore
  | .socketSend senderId senderSock receiverId text now =>
      applyActions store (handleMessageSend userDir reg store senderId senderSock receiverId text now)
  | .socketRead callerId messageId senderId now =>
      applyActions store (handleMessageRead reg store callerId messageId senderId now)
  | .socketConvRead callerId senderId now =>
      applyActions store (handleConversationRead reg store callerId senderId now)
  | .restSend senderId receiverId text now =>
      (restSendMessage userDir store senderId receiverId text now).1
  | .restRead callerId messageId now =>
      (restMarkMessageRead store callerId messageId now).1
  | .restConvRead callerId senderId now =>
      (restMarkConversationRead userDir store callerId senderId now).1
  | .fetchConversation callerId otherUserId now =>
      restGetConversation userDir store callerId otherUserId now

/-- Run a sequence of operations; each comes with the user-directory and
registry state in effect when it runs, so connects and disconnects may be
interleaved arbitrarily between operations. -/
def runOps (store : MsgStore) (ops : List ((Nat → Bool) × Registry × Op)) : MsgStore :=
  ops.foldl (fun s env => stepOp env.1 env.2.1 s env.2.2) store

/-- Whether an action is an `error` emission. -/
def isErrorEmit : Action → Bool
  | .emit _ (.errorEv _) => true
  | _ => false

/-- Store evolution order: every message present keeps its identity slot and
its `delivered` and `read` flags never drop from `true` to `false`. -/
def StoreLe (s s' : MsgStore) : Prop :=
  ∀ (i : Nat) (m : Msg), s[i]? = some m →
    ∃ m' : Msg, s'[i]? = some m' ∧
      (m.delivered = true → m'.delivered = true) ∧
      (m.read = true → m'.read = true)

/-! ### Concrete fixtures for counterexamples and witnesses -/

/-- A user directory in which every id resolves. -/
def udAll : Nat → Bool := fun _ => true

/-- A registry with user 0 connected at socket 10 and user 1 at socket 11. -/
def regAB : Registry := register (register emptyRegistry 0 10) 1 11

/-- A text of 1001 identical characters, one over the schema maximum. -/
def longText : String := String.mk (List.replicate 1001 'a')

/-- A message from user 0 to user 1, already delivered and read at time 1. -/
def mRead : Msg :=
  { sender := 0, receiver := 1, text := "hi", delivered := true, read := true,
    deliveredAt := some 1, readAt := some 1 }

/-- A message from user 0 to user 1, neither delivered nor read. -/
def mUnread : Msg :=
  { sender := 0, receiver := 1, text := "hi", delivered := false, read := false,
    deliveredAt := none, readAt := none }

/-! ### List helper lemmas -/

theorem getElem?_some_lt {α : Type} {l : List α} {i : Nat} {a : α}
    (h : l[i]? = some a) : i < l.length := by
  induction l generalizing i with
  | nil => simp at h
  | cons x xs ih =>
    cases i with
    | zero => simp
    | succ n =>
      simp only [List.getElem?_cons_succ] at h
      exact Nat.succ_lt_succ (ih h)

theorem getElem?_append_lt {α : Type} {l1 l2 : List α} {i : Nat}
    (h : i < l1.length) : (l1 ++ l2)[i]? = l1[i]? := by
  induction l1 generalizing i with
  | nil => simp at h
  | cons x xs ih =>
    cases i with
    | zero => simp
    | succ n =>
      simp only [List.cons_append, List.getElem?_cons_succ]
      exact ih (Nat.lt_of_succ_lt_succ h)

theorem getElem?_append_len {α : Type} (l : List α) (x : α) :
    (l ++ [x])[l.length]? = some x := by
  induction l with
  | nil => simp
  | cons y ys ih =>
    simp only [List.cons_append, List.length_cons, List.getElem?_cons_succ]
    exact ih

theorem getElem?_map_at {α β : Type} (f : α → β) (l : List α) (i : Nat) :
    (l.map f)[i]? = (l[i]?).map f := by
  induction l generalizing i with
  | nil => simp
  | cons x xs ih => cases i with
    | zero => simp
    | succ n =>
      simp only [List.map_cons, List.getElem?_cons_succ]
      exact ih n

theorem updateAt_getElem? (store : MsgStore) (id i : Nat) (f : Msg → Msg) :
    (updateAt store id f)[i]? =
      if i = id then (store[i]?).map f else store[i]? := by
  induction store generalizing id i with
  | nil => cases id <;> cases i <;> simp [updateAt]
  | cons m rest ih =>
    cases id with
    | zero => cases i with
      | zero => simp [updateAt]
      | succ n => simp [updateAt]
    | succ k => cases i with
      | zero => simp [updateAt]
      | succ n => simpa [updateAt, Nat.succ_inj] using ih k n

theorem updateAt_length (store : MsgStore) (id : Nat) (f : Msg → Msg) :
    (updateAt store id f).length = store.length := by
  induction store generalizing id with
  | nil => rfl
  | cons m rest ih => cases id with
    | zero => rfl
    | succ k => simpa [updateAt] using ih k

/-! ### Monotonicity of the delivery-state flags -/

theorem storeLe_refl (s : MsgStore) : StoreLe s s := by
  intro i m h
  exact ⟨m, h, fun hd => hd, fun hr => hr⟩

theorem storeLe_trans {s1 s2 s3 : MsgStore}
    (h12 : StoreLe s1 s2) (h23 : StoreLe s2 s3) : StoreLe s1 s3 := by
  intro i m h
  obtain ⟨m2, hg2, hd2, hr2⟩ := h12 i m h
  obtain ⟨m3, hg3, hd3, hr3⟩ := h23 i m2 hg2
  exact ⟨m3, hg3, fun hd => hd3 (hd2 hd), fun hr => hr3 (hr2 hr)⟩

theorem storeLe_append (s : MsgStore) (l : MsgStore) : StoreLe s (s ++ l) := by
  intro i m h
  refine ⟨m, ?_, fun hd => hd, fun hr => hr⟩
  rw [getElem?_append_lt (getElem?_some_lt h)]
  exact h

/-- Updating one slot with a function that never clears the flags preserves
the evolution order. -/
theorem storeLe_updateAt (s : MsgStore) (id : Nat) (f : Msg → Msg)
    (hf : ∀ m, (m.delivered = true → (f m).delivered = true) ∧
               (m.read = true → (f m).read = true)) :
    StoreLe s (updateAt s id f) := by
  intro i m h
  rw [updateAt_getElem? s id i f]
  by_cases hi : i = id
  · refine ⟨f m, ?_, (hf m).1, (hf m).2⟩
    rw [if_pos hi, h]
    rfl
  · exact ⟨m, by rw [if_neg hi]; exact h, fun hd => hd, fun hr => hr⟩

/-- Mapping a function that never clears the flags preserves the evolution
order. -/
theorem storeLe_map (s : MsgStore) (f : Msg → Msg)
    (hf : ∀ m, (m.delivered = true → (f m).delivered = true) ∧
               (m.read = true → (f m).read = true)) :
    StoreLe s (s.map f) := by
  intro i m h
  refine ⟨f m, ?_, (hf m).1, (hf m).2⟩
  rw [getElem?_map_at, h]
  rfl

theorem applyWrite_le (store : MsgStore) (w : DbWrite) :
    StoreLe store (applyWrite store w) := by
  cases w with
  | create m => exact storeLe_append store [m]
  | setDelivered msgId now =>
    exact storeLe_updateAt _ _ _ (fun m => ⟨fun _ => rfl, fun hr => hr⟩)
  | setRead msgId now =>
    exact storeLe_updateAt _ _ _ (fun m => ⟨fun hd => hd, fun _ => rfl⟩)
  | bulkMarkRead senderId receiverId now =>
    refine storeLe_map _ _ (fun m => ⟨?_, ?_⟩) <;> intro h <;> split <;> simp [h]
  | bulkMarkDelivered senderId receiverId now =>
    refine storeLe_map _ _ (fun m => ⟨?_, ?_⟩) <;> intro h <;> split <;> simp [h]

theorem applyAction_le (store : MsgStore) (a : Action) :
    StoreLe store (applyAction store a) := by
  cases a with
  | db w => exact applyWrite_le store w
  | emit s ev => exact storeLe_refl store

theorem applyActions_le (store : MsgStore) (acts : List Action) :
    StoreLe store (applyActions store acts) := by
  induction acts generalizing store with
  | nil => exact storeLe_refl store
  | cons a rest ih =>
    exact storeLe_trans (applyAction_le store a) (ih (applyAction store a))

theorem restSendMessage_le (ud : Nat → Bool) (store : MsgStore) (senderId : Nat)
    (receiverId : Option Nat) (text : Option String) (now : Nat) :
    StoreLe store (restSendMessage ud store senderId receiverId text now).1 := by
  cases receiverId with
  | none =>
    cases text <;> exact storeLe_refl store
  | some rid =>
    cases text with
    | none => exact storeLe_refl store
    | some t =>
      simp only [restSendMessage]
      split
      · exact storeLe_refl store
      split
      · exact storeLe_refl store
      split
      · exact storeLe_refl store
      split
      · exact storeLe_refl store
      split
      · exact storeLe_refl store
      exact storeLe_append store _

theorem restMarkMessageRead_le (store : MsgStore) (callerId messageId now : Nat) :
    StoreLe store (restMarkMessageRead store callerId messageId now).1 := by
  simp only [restMarkMessageRead]
  split
  · exact storeLe_refl store
  split
  · exact storeLe_refl store
  exact storeLe_updateAt _ _ _ (fun m => ⟨fun hd => hd, fun _ => rfl⟩)

theorem restMarkConversationRead_le (ud : Nat → Bool) (store : MsgStore)
    (callerId senderId now : Nat) :
    StoreLe store (restMarkConversationRead ud store callerId senderId now).1 := by
  simp only [restMarkConversationRead]
  split
  · exact storeLe_refl store
  exact applyWrite_le store (.bulkMarkRead senderId callerId now)

theorem restGetConversation_le (ud : Nat → Bool) (store : MsgStore)
    (callerId otherUserId now : Nat) :
    StoreLe store (restGetConversation ud store callerId otherUserId now) := by
  simp only [restGetConversation]
  split
  · exact storeLe_refl store
  exact applyWrite_le store (.bulkMarkDelivered otherUserId callerId now)

theorem stepOp_le (ud : Nat → Bool) (reg : Registry) (store : MsgStore) (op : Op) :
    StoreLe store (stepOp ud reg store op) := by
  cases op with
  | socketSend senderId senderSock receiverId text now => exact applyActions_le store _
  | socketRead callerId messageId senderId now => exact applyActions_le store _
  | socketConvRead callerId senderId now => exact applyActions_le store _
  | restSend senderId receiverId text now => exact restSendMessage_le ud store senderId receiverId text now
  | restRead callerId messageId now => exact restMarkMessageRead_le store callerId messageId now
  | restConvRead callerId senderId now => exact restMarkConversationRead_le ud store callerId senderId now
  | fetchConversation callerId otherUserId now => exact restGetConversation_le ud store callerId otherUserId now

theorem runOps_le (store : MsgStore) (ops : List ((Nat → Bool) × Registry × Op)) :
    StoreLe store (runOps store ops) := by
  induction ops generalizing store with
  | nil => exact storeLe_refl store
  | cons env rest ih =>
    exact storeLe_trans (stepOp_le env.1 env.2.1 store env.2.2)
      (ih (stepOp env.1 env.2.1 store env.2.2))

/-! ### Reduction of the send handler on validated input -/

theorem handleMessageSend_online (ud : Nat → Bool) (reg : Registry) (store : MsgStore)
    (senderId senderSock rid : Nat) (t : String) (now recvSock : Nat)
    (hne : (jsTrim t).length ≠ 0) (hu : ud rid = true)
    (hlen : (jsTrim t).length ≤ maxMessageLength)
    (hrs : reg.activeUsers rid = some recvSock) :
    handleMessageSend ud reg store senderId senderSock (some rid) (some t) now =
      [Action.db (DbWrite.create
         { sender := senderId, receiver := rid, text := jsTrim t, delivered := false,
           read := false, deliveredAt := none, readAt := none }),
       Action.emit recvSock (OutEvent.messageNew
         { msgId := store.length, text := jsTrim t, senderId := senderId,
           receiverId := rid, delivered := false, read := false, isFromMe := false }),
       Action.db (DbWrite.setDelivered store.length now),
       Action.emit senderSock (OutEvent.messageSent
         { msgId := store.length, text := jsTrim t, senderId := senderId,
           receiverId := rid, delivered := true, read := false, isFromMe := true })] := by
  simp only [handleMessageSend, if_neg hne, hu, Bool.not_true, Bool.false_eq_true, if_false,
    if_neg (Nat.not_lt.mpr hlen), hrs]

theorem handleMessageSend_offline (ud : Nat → Bool) (reg : Registry) (store : MsgStore)
    (senderId senderSock rid : Nat) (t : String) (now : Nat)
    (hne : (jsTrim t).length ≠ 0) (hu : ud rid = true)
    (hlen : (jsTrim t).length ≤ maxMessageLength)
    (hrs : reg.activeUsers rid = none) :
    handleMessageSend ud reg store senderId senderSock (some rid) (some t) now =
      [Action.db (DbWrite.create
         { sender := senderId, receiver := rid, text := jsTrim t, delivered := false,
           read := false, deliveredAt := none, readAt := none }),
       Action.emit senderSock (OutEvent.messageSent
         { msgId := store.length, text := jsTrim t, senderId := senderId,
           receiverId := rid, delivered := false, read := false, isFromMe := true })] := by
  simp only [handleMessageSend, if_neg hne, hu, Bool.not_true, Bool.false_eq_true, if_false,
    if_neg (Nat.not_lt.mpr hlen), hrs]

/-! ### Idempotence of the bulk mark-as-read update -/

theorem unreadMatch_after (s r t1 : Nat) (m : Msg) :
    unreadMatch s r
      (if unreadMatch s r m then { m with read := true, readAt := some t1 } else m)
      = false := by
  cases hm : unreadMatch s r m with
  | true => simp [unreadMatch]
  | false => simpa using hm

theorem map_if_not_matched (p : Msg → Bool) (f : Msg → Msg) (l : List Msg)
    (h : ∀ m ∈ l, p m = false) :
    (l.map fun m => if p m then f m else m) = l := by
  induction l with
  | nil => rfl
  | cons x xs ih =>
    simp only [List.map_cons]
    rw [if_neg (by simp [h x (List.mem_cons_self x xs)]),
      ih fun m hm => h m (List.mem_cons_of_mem x hm)]

theorem countP_zero_of_false (p : Msg → Bool) (l : List Msg)
    (h : ∀ m ∈ l, p m = false) : l.countP p = 0 := by
  induction l with
  | nil => rfl
  | cons x xs ih =>
    rw [List.countP_cons]
    simp [h x (List.mem_cons_self x xs), ih fun m hm => h m (List.mem_cons_of_mem x hm)]

theorem markAsRead_all_false (store : MsgStore) (s r t1 : Nat) :
    ∀ m ∈ (markAsRead store s r t1).1, unreadMatch s r m = false := by
  intro m hm
  simp only [markAsRead, List.mem_map] at hm
  obtain ⟨m0, _, rfl⟩ := hm
  exact unreadMatch_after s r t1 m0

theorem markAsRead_idem (store : MsgStore) (s r t1 t2 : Nat) :
    markAsRead (markAsRead store s r t1).1 s r t2 = ((markAsRead store s r t1).1, 0) := by
  have hall := markAsRead_all_false store s r t1
  unfold markAsRead
  refine Prod.ext ?_ ?_
  · exact map_if_not_matched _ _ _ hall
  · exact countP_zero_of_false _ _ hall

/-! ### Claim theorems -/

/-- Claim C1: for every message and every sequence of operations
(live-channel delivery, live-channel or REST markMessageRead,
markConversationRead, fetch-triggered bulkMarkDelivered, each run under
whatever user-directory and registry state holds at that moment), the
delivery-state fields are monotone: once a message's `delivered` flag is
true no subsequent operation sets it back to false, and once its `read`
flag is true no subsequent operation sets it back to false. -/
theorem c1_delivery_state_monotone (store : MsgStore)
    (ops : List ((Nat → Bool) × Registry × Op)) (i : Nat) (m : Msg)
    (h : store[i]? = some m) :
    ∃ m', (runOps store ops)[i]? = some m' ∧
      (m.delivered = true → m'.delivered = true) ∧
      (m.read = true → m'.read = true) :=
  runOps_le store ops i m h

/-- Witness for C1 on a concrete store and operation sequence. -/
theorem c1_witness :
    ∃ m', (runOps [mRead]
        [(udAll, regAB, Op.socketRead 1 0 0 3),
         (udAll, regAB, Op.socketSend 0 10 (some 1) (some "yo") 4),
         (udAll, regAB, Op.restConvRead 1 0 5),
         (udAll, regAB, Op.fetchConversation 1 0 6),
         (udAll, emptyRegistry, Op.restRead 1 0 7)])[0]? = some m' ∧
      (mRead.delivered = true → m'.delivered = true) ∧
      (mRead.read = true → m'.read = true) :=
  c1_delivery_state_monotone [mRead]
    [(udAll, regAB, Op.socketRead 1 0 0 3),
     (udAll, regAB, Op.socketSend 0 10 (some 1) (some "yo") 4),
     (udAll, regAB, Op.restConvRead 1 0 5),
     (udAll, regAB, Op.fetchConversation 1 0 6),
     (udAll, emptyRegistry, Op.restRead 1 0 7)] 0 mRead (by rfl)

/-- Claim C3 counterexample: the disconnect handler deletes the
user-to-connection mapping unconditionally, so a stale disconnect of socket 1
arriving after user 0 has reconnected on socket 2 does NOT leave the newer
mapping in place — the user ends up unmapped. -/
theorem c3_counterexample :
    (unregister (register (register emptyRegistry 0 1) 0 2) 0 1).activeUsers 0 = none ∧
    ¬ (unregister (register (register emptyRegistry 0 1) 0 2) 0 1).activeUsers 0 = some 2 := by
  exact ⟨rfl, by decide⟩

/-- Claim C3 as amended: the disconnect handler removes the mapping keyed by
the disconnecting connection's owner unconditionally (no check that the
connection is still the registered one), so after any unregister the owner is
unmapped — in particular a stale disconnect racing a newer reconnect removes
the newer mapping. -/
theorem c3_unregister_unconditional (reg : Registry) (u s : Nat) :
    (unregister reg u s).activeUsers u = none ∧
    (unregister reg u s).userSockets s = none := by
  constructor <;> simp [unregister, mapDelete]

/-- Claim C5: registering a second connection for an already-connected user
replaces the prior mapping (last-connect-wins, no error) and resolving that
user afterwards returns only the newest connection. -/
theorem c5_register_replaces (reg : Registry) (u s1 s2 : Nat)
    (_h : reg.activeUsers u = some s1) :
    (register reg u s2).activeUsers u = some s2 ∧
    (register reg u s2).userSockets s2 = some u := by
  constructor <;> simp [register, mapSet]

/-- Witness for C5: user 0 reconnects from socket 1 to socket 2. -/
theorem c5_witness :
    (register (register emptyRegistry 0 1) 0 2).activeUsers 0 = some 2 ∧
    (register (register emptyRegistry 0 1) 0 2).userSockets 2 = some 0 :=
  c5_register_replaces (register emptyRegistry 0 1) 0 1 2 (by rfl)

/-- Claim C8: markConversationRead is idempotent — for a resolvable sender,
invoking it twice in succession yields the same final message-store state as
invoking it once, and the second invocation reports a modified count of
zero. -/
theorem c8_conversation_read_idempotent (ud : Nat → Bool) (store : MsgStore)
    (callerId senderId t1 t2 : Nat) (hu : ud senderId = true) :
    restMarkConversationRead ud (restMarkConversationRead ud store callerId senderId t1).1
        callerId senderId t2
      = ((restMarkConversationRead ud store callerId senderId t1).1, ConvReadResult.ok 0) := by
  simp only [restMarkConversationRead, hu, Bool.not_true, Bool.false_eq_true, if_false]
  rw [markAsRead_idem]

/-- Witness for C8 on a concrete store. -/
theorem c8_witness :
    restMarkConversationRead udAll (restMarkConversationRead udAll [mUnread] 1 0 5).1 1 0 9
      = ((restMarkConversationRead udAll [mUnread] 1 0 5).1, ConvReadResult.ok 0) :=
  c8_conversation_read_idempotent udAll [mUnread] 1 0 5 9 (by rfl)

/-- Claim C7 counterexample: re-marking an already-read message is NOT a
strict no-op — both the live-channel handler and the REST route overwrite the
read timestamp.  `mRead` was read at time 1; marking it read again at time 7
changes its `readAt` to 7 on both paths. -/
theorem c7_counterexample :
    applyActions [mRead] (handleMessageRead emptyRegistry [mRead] 1 0 0 7)
        = [{ mRead with readAt := some 7 }] ∧
    applyActions [mRead] (handleMessageRead emptyRegistry [mRead] 1 0 0 7) ≠ [mRead] ∧
    restMarkMessageRead [mRead] 1 0 7
        = ([{ mRead with readAt := some 7 }], RestReadResult.ok 0 7) := by
  refine ⟨rfl, by decide, rfl⟩

/-- Claim C7 as amended: marking an already-read message read again is not an
error and leaves `read = true`, but it is not a strict no-op — on both the
live-channel and the REST path the message's `readAt` timestamp is
overwritten with the time of the repeated call. -/
theorem c7_mark_read_again (reg : Registry) (store : MsgStore)
    (callerId messageId senderId now : Nat) (m : Msg)
    (h : store[messageId]? = some m) (_hread : m.read = true)
    (hrecv : m.receiver = callerId) :
    (applyActions store
        (handleMessageRead reg store callerId messageId senderId now))[messageId]?
        = some { m with read := true, readAt := some now }
  ∧ (handleMessageRead reg store callerId messageId senderId now).all
        (fun a => !(isErrorEmit a)) = true
  ∧ restMarkMessageRead store callerId messageId now
        = (updateAt store messageId fun x => { x with read := true, readAt := some now },
           RestReadResult.ok messageId now) := by
  refine ⟨?_, ?_, ?_⟩
  · cases hx : reg.activeUsers senderId <;>
      simp [handleMessageRead, h, hx, applyActions, applyAction, applyWrite, updateAt_getElem?]
  · cases hx : reg.activeUsers senderId <;>
      simp [handleMessageRead, h, hx, isErrorEmit]
  · simp [restMarkMessageRead, h, hrecv]

/-- Witness for C7 as amended: message 0 of the store was read at time 1 and
its receiver marks it read again at time 7. -/
theorem c7_witness :
    (applyActions [mRead] (handleMessageRead emptyRegistry [mRead] 1 0 0 7))[0]?
        = some { mRead with read := true, readAt := some 7 }
  ∧ (handleMessageRead emptyRegistry [mRead] 1 0 0 7).all
        (fun a => !(isErrorEmit a)) = true
  ∧ restMarkMessageRead [mRead] 1 0 7
        = (updateAt [mRead] 0 fun x => { x with read := true, readAt := some 7 },
           RestReadResult.ok 0 7) :=
  c7_mark_read_again emptyRegistry [mRead] 1 0 0 7 mRead (by rfl) (by rfl) (by rfl)

/-- Claim C9 counterexample: on the live-channel path, a mark-read attempt by
user 2 — who is neither the sender (0) nor the receiver (1) of the message —
is NOT silently ignored: the handler performs the update and the message's
state changes to read. -/
theorem c9_counterexample :
    applyActions [mUnread] (handleMessageRead emptyRegistry [mUnread] 2 0 0 5)
        = [{ mUnread with read := true, readAt := some 5 }] ∧
    applyActions [mUnread] (handleMessageRead emptyRegistry [mUnread] 2 0 0 5) ≠ [mUnread] ∧
    mUnread.receiver = 1 ∧ mUnread.read = false := by
  refine ⟨rfl, by decide, rfl, rfl⟩

/-- Claim C9 as amended: only at the REST boundary is a mark-read attempt by
a non-receiver rejected (with 403 Unauthorized and no state change); the
live-channel path performs no authorization check at all — it applies the
read update for any caller, without error. -/
theorem c9_read_authorization (reg : Registry) (store : MsgStore)
    (callerId messageId senderId now : Nat) (m : Msg)
    (h : store[messageId]? = some m) (hne : m.receiver ≠ callerId) :
    restMarkMessageRead store callerId messageId now = (store, RestReadResult.unauthorized)
  ∧ (applyActions store
        (handleMessageRead reg store callerId messageId senderId now))[messageId]?
        = some { m with read := true, readAt := some now }
  ∧ (handleMessageRead reg store callerId messageId senderId now).all
        (fun a => !(isErrorEmit a)) = true := by
  refine ⟨?_, ?_, ?_⟩
  · simp [restMarkMessageRead, h, hne]
  · cases hx : reg.activeUsers senderId <;>
      simp [handleMessageRead, h, hx, applyActions, applyAction, applyWrite, updateAt_getElem?]
  · cases hx : reg.activeUsers senderId <;>
      simp [handleMessageRead, h, hx, isErrorEmit]

/-- Witness for C9 as amended: user 2 attempts to mark message 0 (addressed
to user 1) as read. -/
theorem c9_witness :
    restMarkMessageRead [mUnread] 2 0 5 = ([mUnread], RestReadResult.unauthorized)
  ∧ (applyActions [mUnread] (handleMessageRead emptyRegistry [mUnread] 2 0 0 5))[0]?
        = some { mUnread with read := true, readAt := some 5 }
  ∧ (handleMessageRead emptyRegistry [mUnread] 2 0 0 5).all
        (fun a => !(isErrorEmit a)) = true :=
  c9_read_authorization emptyRegistry [mUnread] 2 0 0 5 mUnread (by rfl) (by decide)

/-- Claim C2 counterexample: on the live-channel path a self-send (user 0
sending to receiver id 0) is NOT rejected: the handler persists the message
and emits no error at all (so no InvalidTarget error either). -/
theorem c2_counterexample :
    Action.db (DbWrite.create
      { sender := 0, receiver := 0, text := "hi", delivered := false, read := false,
        deliveredAt := none, readAt := none })
      ∈ handleMessageSend udAll regAB [] 0 10 (some 0) (some "hi") 5
  ∧ (handleMessageSend udAll regAB [] 0 10 (some 0) (some "hi") 5).all
      (fun a => !(isErrorEmit a)) = true
  ∧ (applyActions [] (handleMessageSend udAll regAB [] 0 10 (some 0) (some "hi") 5)).length
      = 1 := by
  refine ⟨?_, ?_, ?_⟩ <;> decide

/-- Claim C2 as amended: only the REST POST /messages path rejects a
self-send with InvalidTarget (400, no message persisted); the live-channel
message:send path has no self-send check — a valid self-addressed send is
persisted (store grows by one) and no error is reported to anyone. -/
theorem c2_self_send (ud : Nat → Bool) (reg : Registry) (store : MsgStore)
    (senderId senderSock : Nat) (t : String) (now : Nat)
    (hu : ud senderId = true) (hemp : t ≠ "") (hne : (jsTrim t).length ≠ 0)
    (hlen : (jsTrim t).length ≤ maxMessageLength) :
    restSendMessage ud store senderId (some senderId) (some t) now
        = (store, RestSendResult.err 400 "Cannot send message to yourself")
  ∧ (applyActions store
        (handleMessageSend ud reg store senderId senderSock (some senderId) (some t) now)).length
        = store.length + 1
  ∧ (handleMessageSend ud reg store senderId senderSock (some senderId) (some t) now).all
        (fun a => !(isErrorEmit a)) = true := by
  refine ⟨?_, ?_, ?_⟩
  · simp only [restSendMessage, if_neg hemp, if_neg hne, hu, Bool.not_true,
      Bool.false_eq_true, if_false, if_pos rfl, if_true]
  · cases hx : reg.activeUsers senderId with
    | some recvSock =>
      rw [handleMessageSend_online ud reg store senderId senderSock senderId t now recvSock
        hne hu hlen hx]
      simp [applyActions, applyAction, applyWrite, updateAt_length]
    | none =>
      rw [handleMessageSend_offline ud reg store senderId senderSock senderId t now
        hne hu hlen hx]
      simp [applyActions, applyAction, applyWrite]
  · cases hx : reg.activeUsers senderId with
    | some recvSock =>
      rw [handleMessageSend_online ud reg store senderId senderSock senderId t now recvSock
        hne hu hlen hx]
      simp [isErrorEmit]
    | none =>
      rw [handleMessageSend_offline ud reg store senderId senderSock senderId t now
        hne hu hlen hx]
      simp [isErrorEmit]

/-- Witness for C2 as amended: user 0 sends "hi" to themselves. -/
theorem c2_witness :
    restSendMessage udAll [] 0 (some 0) (some "hi") 5
        = ([], RestSendResult.err 400 "Cannot send message to yourself")
  ∧ (applyActions [] (handleMessageSend udAll regAB [] 0 10 (some 0) (some "hi") 5)).length
        = ([] : MsgStore).length + 1
  ∧ (handleMessageSend udAll regAB [] 0 10 (some 0) (some "hi") 5).all
        (fun a => !(isErrorEmit a)) = true :=
  c2_self_send udAll regAB [] 0 10 "hi" 5 (by rfl) (by decide) (by decide) (by decide)

set_option maxRecDepth 10000 in
/-- Claim C6 counterexample: a live-channel send whose text exceeds the
configured maximum length (1001 characters) does not yield the InvalidPayload
error of that path ("Invalid message data"); it fails at save and the handler
emits the generic "Failed to send message" instead. -/
theorem c6_counterexample :
    handleMessageSend udAll regAB [] 0 10 (some 1) (some longText) 5
        = [Action.emit 10 (OutEvent.errorEv "Failed to send message")] ∧
    handleMessageSend udAll regAB [] 0 10 (some 1) (some longText) 5
        ≠ [Action.emit 10 (OutEvent.errorEv "Invalid message data")] := by
  have h : handleMessageSend udAll regAB [] 0 10 (some 1) (some longText) 5
      = [Action.emit 10 (OutEvent.errorEv "Failed to send message")] := by rfl
  refine ⟨h, ?_⟩
  rw [h]
  decide

/-- Claim C6 as amended: text that is empty after trimming yields the
InvalidPayload error on both paths; with non-empty text, an unresolvable
receiver yields ReceiverNotFound on both paths; oversized text yields the
400 validation error on the REST path but the generic send-failure error
(not InvalidPayload) on the live-channel path.  In every case exactly one
error is reported, to the sender only, and no message is persisted. -/
theorem c6_send_validation :
    (∀ (ud : Nat → Bool) (reg : Registry) (store : MsgStore)
        (senderId senderSock rid : Nat) (t : String) (now : Nat),
       (jsTrim t).length = 0 →
       handleMessageSend ud reg store senderId senderSock (some rid) (some t) now
         = [Action.emit senderSock (OutEvent.errorEv "Invalid message data")])
  ∧ (∀ (ud : Nat → Bool) (reg : Registry) (store : MsgStore)
        (senderId senderSock rid : Nat) (t : String) (now : Nat),
       (jsTrim t).length ≠ 0 → ud rid = false →
       handleMessageSend ud reg store senderId senderSock (some rid) (some t) now
         = [Action.emit senderSock (OutEvent.errorEv "Receiver not found")])
  ∧ (∀ (ud : Nat → Bool) (reg : Registry) (store : MsgStore)
        (senderId senderSock rid : Nat) (t : String) (now : Nat),
       (jsTrim t).length ≠ 0 → ud rid = true →
       maxMessageLength < (jsTrim t).length →
       handleMessageSend ud reg store senderId senderSock (some rid) (some t) now
         = [Action.emit senderSock (OutEvent.errorEv "Failed to send message")])
  ∧ (∀ (ud : Nat → Bool) (store : MsgStore) (senderId rid : Nat) (t : String) (now : Nat),
       t ≠ "" → (jsTrim t).length = 0 →
       restSendMessage ud store senderId (some rid) (some t) now
         = (store, RestSendResult.err 400 "Message text cannot be empty"))
  ∧ (∀ (ud : Nat → Bool) (store : MsgStore) (senderId rid : Nat) (t : String) (now : Nat),
       t ≠ "" → (jsTrim t).length ≠ 0 → ud rid = false →
       restSendMessage ud store senderId (some rid) (some t) now
         = (store, RestSendResult.err 404 "Receiver not found"))
  ∧ (∀ (ud : Nat → Bool) (store : MsgStore) (senderId rid : Nat) (t : String) (now : Nat),
       t ≠ "" → (jsTrim t).length ≠ 0 → ud rid = true → rid ≠ senderId →
       maxMessageLength < (jsTrim t).length →
       restSendMessage ud store senderId (some rid) (some t) now
         = (store, RestSendResult.err 400 "Message cannot exceed 1000 characters")) := by
  refine ⟨?_, ?_, ?_, ?_, ?_, ?_⟩
  · intro ud reg store senderId senderSock rid t now h0
    simp only [handleMessageSend, if_pos h0]
  · intro ud reg store senderId senderSock rid t now hne hu
    simp only [handleMessageSend, if_neg hne, hu, Bool.not_false, if_true]
  · intro ud reg store senderId senderSock rid t now hne hu hlong
    simp only [handleMessageSend, if_neg hne, hu, Bool.not_true, Bool.false_eq_true,
      if_false, if_pos hlong]
  · intro ud store senderId rid t now hemp h0
    simp only [restSendMessage, if_neg hemp, if_pos h0]
  · intro ud store senderId rid t now hemp hne hu
    simp only [restSendMessage, if_neg hemp, if_neg hne, hu, Bool.not_false, if_true]
  · intro ud store senderId rid t now hemp hne hu hself hlong
    simp only [restSendMessage, if_neg hemp, if_neg hne, hu, Bool.not_true,
      Bool.false_eq_true, if_false, if_neg hself, if_pos hlong]

/-- Witness for C6 as amended: whitespace-only text on the live-channel path
and on the REST path yields the InvalidPayload error of each path. -/
theorem c6_witness :
    handleMessageSend udAll regAB [] 0 10 (some 1) (some " ") 5
        = [Action.emit 10 (OutEvent.errorEv "Invalid message data")]
  ∧ restSendMessage udAll [] 0 (some 1) (some " ") 5
        = ([], RestSendResult.err 400 "Message text cannot be empty") :=
  ⟨c6_send_validation.1 udAll regAB [] 0 10 1 " " 5 (by decide),
   c6_send_validation.2.2.2.1 udAll [] 0 1 " " 5 (by decide) (by decide)⟩

/-- Claim C4: on a validated live-channel send, if the receiver has a
registered connection at send time then the handler pushes `message:new` to
the receiver and transitions the message to `delivered = true` in the store
before emitting the sender's `message:sent` acknowledgment, and that
acknowledgment carries `delivered = true`; if the receiver has no live
connection, the acknowledgment carries `delivered = false` and no
`message:new` is pushed to anyone. -/
theorem c4_delivery_before_ack (ud : Nat → Bool) (reg : Registry) (store : MsgStore)
    (senderId senderSock rid : Nat) (t : String) (now : Nat)
    (hne : (jsTrim t).length ≠ 0) (hu : ud rid = true)
    (hlen : (jsTrim t).length ≤ maxMessageLength) :
    (∀ recvSock, reg.activeUsers rid = some recvSock →
       ∃ l1 l2 v,
         handleMessageSend ud reg store senderId senderSock (some rid) (some t) now
             = l1 ++ Action.emit senderSock (OutEvent.messageSent v) :: l2
         ∧ v.delivered = true
         ∧ (∃ w, Action.emit recvSock (OutEvent.messageNew w) ∈ l1)
         ∧ ((applyActions store l1)[store.length]?).map Msg.delivered = some true)
  ∧ (reg.activeUsers rid = none →
       (∃ v, Action.emit senderSock (OutEvent.messageSent v)
               ∈ handleMessageSend ud reg store senderId senderSock (some rid) (some t) now
             ∧ v.delivered = false)
       ∧ ∀ (s : Nat) (w : MsgView),
           Action.emit s (OutEvent.messageNew w)
             ∉ handleMessageSend ud reg store senderId senderSock (some rid) (some t) now) := by
  constructor
  · intro recvSock hrs
    rw [handleMessageSend_online ud reg store senderId senderSock rid t now recvSock
      hne hu hlen hrs]
    refine ⟨[Action.db (DbWrite.create
        { sender := senderId, receiver := rid, text := jsTrim t, delivered := false,
          read := false, deliveredAt := none, readAt := none }),
      Action.emit recvSock (OutEvent.messageNew
        { msgId := store.length, text := jsTrim t, senderId := senderId,
          receiverId := rid, delivered := false, read := false, isFromMe := false }),
      Action.db (DbWrite.setDelivered store.length now)], [],
      { msgId := store.length, text := jsTrim t, senderId := senderId,
        receiverId := rid, delivered := true, read := false, isFromMe := true },
      rfl, rfl,
      ⟨{ msgId := store.length, text := jsTrim t, senderId := senderId,
         receiverId := rid, delivered := false, read := false, isFromMe := false },
       by simp⟩, ?_⟩
    simp only [applyActions, List.foldl, applyAction, applyWrite]
    rw [updateAt_getElem?]
    simp [getElem?_append_len]
  · intro hrs
    rw [handleMessageSend_offline ud reg store senderId senderSock rid t now hne hu hlen hrs]
    constructor
    · exact ⟨{ msgId := store.length, text := jsTrim t, senderId := senderId,
               receiverId := rid, delivered := false, read := false, isFromMe := true },
        by simp, rfl⟩
    · intro s w
      simp

/-- Witness for C4: user 0 (socket 10) sends "hi" to user 1, who is online at
socket 11 in `regAB`. -/
theorem c4_witness :
    ∃ l1 l2 v,
      handleMessageSend udAll regAB [] 0 10 (some 1) (some "hi") 5
          = l1 ++ Action.emit 10 (OutEvent.messageSent v) :: l2
      ∧ v.delivered = true
      ∧ (∃ w, Action.emit 11 (OutEvent.messageNew w) ∈ l1)
      ∧ ((applyActions [] l1)[([] : MsgStore).length]?).map Msg.delivered = some true :=
  (c4_delivery_before_ack udAll regAB [] 0 10 1 "hi" 5 (by decide) (by rfl) (by decide)).1
    11 (by rfl)

/-- Claim C10: on a validated live-channel send with the receiver online, the
`message:new` event pushed to the receiver carries `delivered = false` (the
payload is the snapshot taken before the delivered transition), even though
the store ends with `delivered = true` for that message and the sender's
`message:sent` acknowledgment carries `delivered = true`. -/
theorem c10_receiver_payload_stale (ud : Nat → Bool) (reg : Registry) (store : MsgStore)
    (senderId senderSock rid : Nat) (t : String) (now recvSock : Nat)
    (hne : (jsTrim t).length ≠ 0) (hu : ud rid = true)
    (hlen : (jsTrim t).length ≤ maxMessageLength)
    (hrs : reg.activeUsers rid = some recvSock) :
    (∃ w, Action.emit recvSock (OutEvent.messageNew w)
            ∈ handleMessageSend ud reg store senderId senderSock (some rid) (some t) now
          ∧ w.delivered = false)
  ∧ (∃ v, Action.emit senderSock (OutEvent.messageSent v)
            ∈ handleMessageSend ud reg store senderId senderSock (some rid) (some t) now
          ∧ v.delivered = true)
  ∧ ((applyActions store
        (handleMessageSend ud reg store senderId senderSock (some rid) (some t) now))[store.length]?).map
        Msg.delivered = some true := by
  rw [handleMessageSend_online ud reg store senderId senderSock rid t now recvSock
    hne hu hlen hrs]
  refine ⟨⟨{ msgId := store.length, text := jsTrim t, senderId := senderId,
             receiverId := rid, delivered := false, read := false, isFromMe := false },
      by simp, rfl⟩,
    ⟨{ msgId := store.length, text := jsTrim t, senderId := senderId,
       receiverId := rid, delivered := true, read := false, isFromMe := true },
      by simp, rfl⟩, ?_⟩
  simp only [applyActions, List.foldl, applyAction, applyWrite]
  rw [updateAt_getElem?]
  simp [getElem?_append_len]

/-- Witness for C10: user 0 (socket 10) sends "hi" to user 1, online at
socket 11. -/
theorem c10_witness :
    (∃ w, Action.emit 11 (OutEvent.messageNew w)
            ∈ handleMessageSend udAll regAB [] 0 10 (some 1) (some "hi") 5
          ∧ w.delivered = false)
  ∧ (∃ v, Action.emit 10 (OutEvent.messageSent v)
            ∈ handleMessageSend udAll regAB [] 0 10 (some 1) (some "hi") 5
          ∧ v.delivered = true)
  ∧ ((applyActions []
        (handleMessageSend udAll regAB [] 0 10 (some 1) (some "hi") 5))[([] : MsgStore).length]?).map
        Msg.delivered = some true :=
  c10_receiver_payload_stale udAll regAB [] 0 10 1 "hi" 5 11
    (by decide) (by rfl) (by decide) (by rfl)

end Chat

